import Mathlib

/-!
# Verification of the npm-solution-scout candidate evaluator

Shallow embedding of `src/plugins/npm-solution-scout/scripts/evaluate-candidates.js`.

Modelling conventions:
* JavaScript numbers are modelled in exact rational arithmetic (`ℚ`); the
  integer-valued sub-scores are modelled as `ℤ`.  `Math.round` is modelled as
  `⌊x + 1/2⌋` (round half toward `+∞`), which is its behaviour on the values
  arising here.
* Timestamps (`Date` values) are modelled as milliseconds since the epoch, as
  rationals; `new Date()` at evaluation time is an explicit `now` parameter.
* JavaScript truthiness on optional string fields: `none` (absent/undefined)
  and `some ""` (empty string) are falsy, any other string is truthy.  On
  optional numeric fields `none` and `some 0` are falsy.
* `String.prototype.toUpperCase`/`toLowerCase` are modelled on the ASCII
  range (all license names and heuristic substrings involved are ASCII).
* The asynchronous fetches are modelled by passing each fetch's outcome as an
  explicit argument: package-metadata fetch as `Except String Pkg` (the JS
  `getPackageInfo` throws an `Error` with a message on failure), and the
  download-stat fetch by its resolved value.  `Promise.all` over
  `packages.map` is modelled as `List.map`, which preserves input order.
-/

set_option maxRecDepth 1000000

namespace NpmScout

/-- Exact division of rationals, the model of JS `/` on numbers.  It is
defined through `Rat.divInt` (rather than `HDiv.hDiv`, whose `Rat.inv` is
irreducible) so that concrete inputs evaluate by kernel reduction;
`jsDiv_eq_div` identifies it with ordinary division. -/
def jsDiv (a b : ℚ) : ℚ :=
  Rat.divInt (a.num * (b.den : ℤ)) ((a.den : ℤ) * b.num)

theorem jsDiv_eq_div (a b : ℚ) : jsDiv a b = a / b := by
  rw [jsDiv, Rat.divInt_eq_div]
  calc ((a.num * (b.den : ℤ) : ℤ) : ℚ) / (((a.den : ℤ) * b.num : ℤ) : ℚ)
      = ((a.num : ℚ) / (a.den : ℚ)) * ((b.den : ℚ) / (b.num : ℚ)) := by
        push_cast; rw [div_mul_div_comm]
    _ = a * ((b.num : ℚ) / (b.den : ℚ))⁻¹ := by rw [Rat.num_div_den, inv_div]
    _ = a / b := by rw [Rat.num_div_den, div_eq_mul_inv]

/-- ASCII upper-casing of one character (model of the effect of JS
`toUpperCase` on the ASCII range). -/
def asciiUpperChar (c : Char) : Char :=
  if 'a' ≤ c ∧ c ≤ 'z' then Char.ofNat (c.toNat - 32) else c

/-- ASCII lower-casing of one character. -/
def asciiLowerChar (c : Char) : Char :=
  if 'A' ≤ c ∧ c ≤ 'Z' then Char.ofNat (c.toNat + 32) else c

/-- Model of `s.toUpperCase()` on ASCII strings. -/
def jsToUpper (s : String) : String :=
  ⟨s.data.map asciiUpperChar⟩

/-- Model of `s.toLowerCase()` on ASCII strings. -/
def jsToLower (s : String) : String :=
  ⟨s.data.map asciiLowerChar⟩

/-- Does `pat` occur as a contiguous run inside `s` (on character lists)?
Model of `String.prototype.includes`. -/
def containsSub : List Char → List Char → Bool
  | s, pat =>
    if pat.isPrefixOf s then true
    else
      match s with
      | [] => false
      | _ :: rest => containsSub rest pat

/-- Model of `s.includes(pat)` for strings. -/
def strIncludes (s pat : String) : Bool :=
  containsSub s.data pat.data

/-- The JS `license` field of a package manifest: a plain string, an object
(whose `type` property may be absent), or absent entirely. -/
inductive JLicense where
  | jstr (s : String)
  | jobj (type : Option String)
  | jabsent
deriving DecidableEq, Repr

/-- One entry of the legacy `licenses` array: a plain string or an object
with an optional `type` property. -/
inductive LEntry where
  | lstr (s : String)
  | lobj (type : Option String)
deriving DecidableEq, Repr

/-- The `repository` field; only its presence and `url` property are read. -/
structure RepoInfo where
  url : Option String
deriving DecidableEq, Repr

/-- Package metadata as returned by `npm view <name> --json` — the fields the
evaluator reads.  `time` is the publish-history object, a finite map from
version label (plus the synthetic keys `"created"`/`"modified"`) to publish
timestamp, modelled as an association list. -/
structure Pkg where
  name : String
  version : Option String := none
  description : Option String := none
  time : Option (List (String × ℚ)) := none
  deprecated : Option String := none
  license : JLicense := .jabsent
  licenses : Option (List LEntry) := none
  repository : Option RepoInfo := none
  homepage : Option String := none
  keywords : Option (List String) := none
  maintainers : Option (List String) := none
  types : Option String := none
  typings : Option String := none
deriving DecidableEq, Repr

/-- JS truthiness of an optional string value. -/
def truthyStr : Option String → Bool
  | some s => s ≠ ""
  | none => false

/-- Model of `x && x.length > 0` for an optional JS array `x` (an array is truthy even
when empty, so the conjunction reduces to: present and non-empty). -/
def presentNonEmpty {α : Type} : Option (List α) → Bool
  | some l => decide (l.length > 0)
  | none => false

/-- Model of `a || b` where `a` is an optional numeric JS value (absent or `0` is
falsy) and `b` a number. -/
def orFalsyQ (a : Option ℚ) (b : ℚ) : ℚ :=
  match a with
  | some v => if v = 0 then b else v
  | none => b

/-- Model of `a || b` on two optional numeric JS values (used where the fallback may
itself be absent, as in `pkg.time?.modified || pkg.time?.created`). -/
def jsOrQ (a b : Option ℚ) : Option ℚ :=
  match a with
  | some v => if v = 0 then b else some v
  | none => b

/-- Model of `pkg.time?.[k]`: look a key up in the publish-history object. -/
def timeLookup (pkg : Pkg) (k : String) : Option ℚ :=
  match pkg.time with
  | some entries => (entries.find? (fun e => e.1 = k)).map Prod.snd
  | none => none

/-- Model of `Object.keys(pkg.time || \x7b\x7d)`. -/
def timeKeys (pkg : Pkg) : List String :=
  match pkg.time with
  | some entries => entries.map Prod.fst
  | none => []

/-- Truthiness of `pkg.deprecated` (a deprecation message string in npm
metadata; absent when the package is not deprecated). -/
def isDeprecated (pkg : Pkg) : Bool :=
  truthyStr pkg.deprecated

/-- The non-synthetic publish-history keys:
`Object.keys(pkg.time || {}).filter(v => v !== 'created' && v !== 'modified')`. -/
def versionKeys (pkg : Pkg) : List String :=
  (timeKeys pkg).filter (fun v => v ≠ "created" && v ≠ "modified")

/-- Model of `new Date(pkg.time?.modified || pkg.time?.created || 0).getTime()`,
in milliseconds. -/
def lastPublishMs (pkg : Pkg) : ℚ :=
  orFalsyQ (timeLookup pkg "modified") (orFalsyQ (timeLookup pkg "created") 0)

/-- Model of `calculateMaintenanceScore` (lines 48–79).  `now` is the current time in
milliseconds. -/
def calculateMaintenanceScore (now : ℚ) (pkg : Pkg) : ℤ :=
  let score : ℤ := 0
  let monthsSincePublish : ℚ := jsDiv (now - lastPublishMs pkg) (1000 * 60 * 60 * 24 * 30)
  let score : ℤ :=
    if monthsSincePublish < 6 then score + 3
    else if monthsSincePublish < 12 then score + 2
    else if monthsSincePublish < 24 then score + 1
    else if monthsSincePublish > 36 then score - 5
    else score
  -- Check for deprecated flag: automatic disqualification of the running score
  let score : ℤ := if isDeprecated pkg then 0 else score
  -- Regular releases indicator
  let score : ℤ :=
    if (versionKeys pkg).length > 10 then score + 2
    else if (versionKeys pkg).length > 5 then score + 1
    else score
  max 0 (min 10 score)

/-- Model of `calculatePopularityScore` (lines 81–88). -/
def calculatePopularityScore (downloads : ℚ) : ℤ :=
  if downloads ≥ 10000000 then 10
  else if downloads ≥ 1000000 then 8
  else if downloads ≥ 100000 then 6
  else if downloads ≥ 10000 then 4
  else if downloads ≥ 1000 then 2
  else 1

/-- Model of `calculateQualityScore` (lines 90–121). -/
def calculateQualityScore (pkg : Pkg) : ℤ :=
  let score : ℤ := 0
  -- TypeScript support
  let score : ℤ :=
    if truthyStr pkg.types || truthyStr pkg.typings then score + 3
    else if pkg.name.startsWith "@types/" then score + 2
    else score
  -- Has repository
  let score : ℤ := if pkg.repository.isSome then score + 1 else score
  -- Has keywords
  let score : ℤ := if presentNonEmpty pkg.keywords then score + 1 else score
  -- Has homepage/docs
  let score : ℤ := if truthyStr pkg.homepage then score + 1 else score
  -- Active maintainers
  let score : ℤ := if presentNonEmpty pkg.maintainers then score + 1 else score
  min 10 score

/-- Model of `calculateSecurityScore` (lines 123–141). -/
def calculateSecurityScore (pkg : Pkg) : ℤ :=
  let score : ℤ := 10
  -- Deprecated packages
  let score : ℤ := if isDeprecated pkg then score - 8 else score
  -- Suspicious patterns (basic heuristics)
  let name := jsToLower pkg.name
  let score : ℤ :=
    if strIncludes name "test" && strIncludes name "package" then score - 3
    else score
  max 0 score

/-- One entry of the `licenses` array as the `map` callback `l => l.type || l`
renders it: the `type` property when truthy, otherwise the entry itself
(a plain string stays itself; an object stringifies to `"[object Object]"`
when `Array.prototype.join` concatenates it). -/
def entryText : LEntry → String
  | .lstr s => s
  | .lobj t =>
    match t with
    | some ty => if ty ≠ "" then ty else "[object Object]"
    | none => "[object Object]"

/-- Model of the `pkg.licenses && Array.isArray(pkg.licenses)` branch and the final
fallback of `detectLicense`. -/
def licensesFallback (pkg : Pkg) : String :=
  match pkg.licenses with
  | some entries => String.intercalate ", " (entries.map entryText)
  | none => "Unknown"

/-- Model of `detectLicense` (lines 143–154). -/
def detectLicense (pkg : Pkg) : String :=
  match pkg.license with
  | .jstr s => s
  | .jobj t =>
    match t with
    | some ty => if ty ≠ "" then ty else licensesFallback pkg
    | none => licensesFallback pkg
  | .jabsent => licensesFallback pkg

/-- The fixed allow-list of `isLicenseCompatible`. -/
def compatibleList : List String :=
  ["MIT", "Apache-2.0", "BSD-2-Clause", "BSD-3-Clause", "ISC", "CC0-1.0", "0BSD"]

/-- The fixed deny-list of `isLicenseCompatible`. -/
def problematicList : List String :=
  ["GPL-3.0", "AGPL-3.0", "AGPL"]

/-- Model of `isLicenseCompatible` (lines 156–169). -/
def isLicenseCompatible (license : String) : String :=
  let upperLicense := jsToUpper license
  if compatibleList.any (fun l => strIncludes upperLicense (jsToUpper l)) then
    "compatible"
  else if problematicList.any (fun l => strIncludes upperLicense (jsToUpper l)) then
    "problematic"
  else
    "unknown"

/-- The outcome of one request to the download-stats endpoint, as seen by the
response handler of `getDownloadStats`: the `'error'` event fired on the
request, or a body `JSON.parse` rejects, or a parsed stats object whose
`downloads` field is absent or a number. -/
inductive DlResponse where
  | netError
  | badBody
  | stats (downloads : Option ℚ)
deriving DecidableEq, Repr

/-- Model of `getDownloadStats` (lines 27–46), as a function of the response outcome:
network errors and parse errors resolve to `0`; otherwise the promise
resolves `stats.downloads || 0`. -/
def getDownloadStats : DlResponse → ℚ
  | .netError => 0
  | .badBody => 0
  | .stats d =>
    match d with
    | some v => if v = 0 then 0 else v
    | none => 0

/-- Model of `Math.round x` (round half toward `+∞`).  `Rat.floor` is the `⌊·⌋` of the
`FloorRing ℚ` instance and, unlike `Rat.inv`, evaluates by kernel
reduction. -/
def mathRound (x : ℚ) : ℤ := Rat.floor (x + jsDiv 1 2)

theorem mathRound_eq_floor (x : ℚ) : mathRound x = ⌊x + 1 / 2⌋ := by
  rw [mathRound, jsDiv_eq_div]
  rfl

/-- The five per-package sub-scores plus the composite (the `scores` object
of an `EvaluationResult`). -/
structure ScoreRecord where
  maintenance : ℤ
  popularity : ℤ
  quality : ℤ
  security : ℤ
  composite : ℚ
deriving DecidableEq, Repr

/-- The all-zero `scores` object of an error-shaped result. -/
def zeroScores : ScoreRecord :=
  { maintenance := 0, popularity := 0, quality := 0, security := 0, composite := 0 }

/-- One evaluation record as serialized by `evaluatePackage`.  Fields absent
on the error path are `Option`s set to `none` there. -/
structure EvaluationResult where
  name : String
  version : Option String
  description : Option String
  downloads : Option ℚ
  lastPublish : Option ℚ
  deprecated : Option String
  license : Option String
  licenseCompatibility : Option String
  repository : Option String
  homepage : Option String
  hasTypes : Option Bool
  keywords : Option (List String)
  maintainers : Option ℤ
  error : Option String
  scores : ScoreRecord
deriving DecidableEq, Repr

/-- The composite-score formula of lines 185–190 together with the one-decimal
rounding of line 211:
`Math.round((quality*0.15 + maintenance*0.25 + security*0.20 + popularity*0.10 + 3.0) * 10) / 10`. -/
def compositeOf (quality maintenance security popularity : ℤ) : ℚ :=
  let compositeScore : ℚ :=
    ((quality : ℚ) * jsDiv 15 100 + (maintenance : ℚ) * jsDiv 25 100 +
      (security : ℚ) * jsDiv 20 100 + (popularity : ℚ) * jsDiv 10 100) + 3
  jsDiv (mathRound (compositeScore * 10) : ℚ) 10

/-- Equation for `compositeOf` in terms of ordinary rational division and `⌊·⌋`. -/
theorem compositeOf_eq (q m s p : ℤ) :
    compositeOf q m s p =
      (⌊((q : ℚ) * (15 / 100) + (m : ℚ) * (25 / 100) +
          (s : ℚ) * (20 / 100) + (p : ℚ) * (10 / 100) + 3) * 10 + 1 / 2⌋ : ℚ) / 10 := by
  rw [compositeOf]
  rw [jsDiv_eq_div, jsDiv_eq_div, jsDiv_eq_div, jsDiv_eq_div, jsDiv_eq_div,
    mathRound_eq_floor]

/-- The success branch of `evaluatePackage` (lines 172–213), applied to
already-fetched metadata and downloads. -/
def evaluateFetched (now : ℚ) (packageName : String) (pkg : Pkg) (downloads : ℚ) :
    EvaluationResult :=
  let maintenance := calculateMaintenanceScore now pkg
  let popularity := calculatePopularityScore downloads
  let quality := calculateQualityScore pkg
  let security := calculateSecurityScore pkg
  let license := detectLicense pkg
  let licenseCompatibility := isLicenseCompatible license
  { name := packageName
    version := pkg.version
    description := pkg.description
    downloads := some downloads
    lastPublish := jsOrQ (timeLookup pkg "modified") (timeLookup pkg "created")
    deprecated := if truthyStr pkg.deprecated then pkg.deprecated else none
    license := some license
    licenseCompatibility := some licenseCompatibility
    repository := pkg.repository.bind RepoInfo.url
    homepage := pkg.homepage
    hasTypes := some (truthyStr pkg.types || truthyStr pkg.typings)
    keywords := some (pkg.keywords.getD [])
    maintainers := some ((pkg.maintainers.getD []).length : ℤ)
    error := none
    scores :=
      { maintenance := maintenance
        popularity := popularity
        quality := quality
        security := security
        composite := compositeOf quality maintenance security popularity } }

/-- The catch branch of `evaluatePackage` (lines 214–226). -/
def evaluateFailed (packageName : String) (msg : String) : EvaluationResult :=
  { name := packageName
    version := none
    description := none
    downloads := none
    lastPublish := none
    deprecated := none
    license := none
    licenseCompatibility := none
    repository := none
    homepage := none
    hasTypes := none
    keywords := none
    maintainers := none
    error := some msg
    scores := zeroScores }

/-- Model of `evaluatePackage` (lines 171–227): `getPackageInfo` either throws (the
`Except.error` case, caught by the surrounding `try`) or yields the metadata;
`getDownloadStats` always resolves, to `downloads`. -/
def evaluatePackage (now : ℚ) (packageName : String)
    (fetched : Except String Pkg) (downloads : ℚ) : EvaluationResult :=
  match fetched with
  | .ok pkg => evaluateFetched now packageName pkg downloads
  | .error msg => evaluateFailed packageName msg

/-- The per-candidate inputs of one batch run: the candidate's name together
with the outcomes of its two fetches. -/
structure EvalInput where
  name : String
  fetched : Except String Pkg
  downloads : ℚ
deriving Repr

/-- The batch of `main` (lines 237–239):
`Promise.all(packages.map(pkg => evaluatePackage(pkg)))` — every candidate is
evaluated and the results are joined in input order. -/
def evaluateAll (now : ℚ) (inputs : List EvalInput) : List EvaluationResult :=
  inputs.map (fun i => evaluatePackage now i.name i.fetched i.downloads)

/-! ## Helper lemmas shared by the claim theorems -/

theorem maintenance_bounds (now : ℚ) (pkg : Pkg) :
    0 ≤ calculateMaintenanceScore now pkg ∧ calculateMaintenanceScore now pkg ≤ 10 := by
  unfold calculateMaintenanceScore
  split_ifs <;> constructor <;> simp [le_max_iff, max_le_iff, min_le_iff]

theorem popularity_bounds (d : ℚ) :
    1 ≤ calculatePopularityScore d ∧ calculatePopularityScore d ≤ 10 := by
  unfold calculatePopularityScore
  split_ifs <;> norm_num

theorem quality_bounds (pkg : Pkg) :
    0 ≤ calculateQualityScore pkg ∧ calculateQualityScore pkg ≤ 7 := by
  unfold calculateQualityScore
  split_ifs <;> constructor <;> norm_num [le_min_iff, min_le_iff]

theorem security_bounds (pkg : Pkg) :
    0 ≤ calculateSecurityScore pkg ∧ calculateSecurityScore pkg ≤ 10 := by
  unfold calculateSecurityScore
  split_ifs <;> constructor <;> simp [le_max_iff, max_le_iff] <;> split_ifs <;> norm_num

/-- Unfolding lemma for the `scores` object of a successful evaluation. -/
theorem evaluate_ok_scores (now : ℚ) (name : String) (pkg : Pkg) (d : ℚ) :
    (evaluatePackage now name (.ok pkg) d).scores =
      { maintenance := calculateMaintenanceScore now pkg
        popularity := calculatePopularityScore d
        quality := calculateQualityScore pkg
        security := calculateSecurityScore pkg
        composite := compositeOf (calculateQualityScore pkg) (calculateMaintenanceScore now pkg)
          (calculateSecurityScore pkg) (calculatePopularityScore d) } := rfl

/-! ## Claim theorems -/

/-- C4: `calculatePopularityScore` is the step function of weekly downloads
with thresholds 10000000 → 10, 1000000 → 8, 100000 → 6, 10000 → 4, 1000 → 2
and 1 below, hitting the advertised values at 999, 1000, 99999 and 100000,
and it is monotonically non-decreasing. -/
theorem popularity_step_function_monotone :
    calculatePopularityScore 999 = 1 ∧
    calculatePopularityScore 1000 = 2 ∧
    calculatePopularityScore 99999 = 4 ∧
    calculatePopularityScore 100000 = 6 ∧
    (∀ d : ℚ, calculatePopularityScore d =
      if d ≥ 10000000 then 10
      else if d ≥ 1000000 then 8
      else if d ≥ 100000 then 6
      else if d ≥ 10000 then 4
      else if d ≥ 1000 then 2
      else 1) ∧
    (∀ d1 d2 : ℚ, d1 ≤ d2 → calculatePopularityScore d1 ≤ calculatePopularityScore d2) := by
  refine ⟨by decide, by decide, by decide, by decide, fun d => rfl, fun d1 d2 h => ?_⟩
  unfold calculatePopularityScore
  split_ifs <;> norm_num <;> linarith

/-- C4 witness: the monotonicity conjunct applied at the concrete pair
`999 ≤ 1000`. -/
theorem popularity_step_function_monotone_witness :
    calculatePopularityScore 999 ≤ calculatePopularityScore 1000 :=
  popularity_step_function_monotone.2.2.2.2.2 999 1000 (by norm_num)

/-- C5: for every package metadata value, every current time and every
download count, the four sub-scores are integers in `[0, 10]`. -/
theorem subscores_within_range (now : ℚ) (pkg : Pkg) (d : ℚ) :
    (0 ≤ calculateMaintenanceScore now pkg ∧ calculateMaintenanceScore now pkg ≤ 10) ∧
    (0 ≤ calculatePopularityScore d ∧ calculatePopularityScore d ≤ 10) ∧
    (0 ≤ calculateQualityScore pkg ∧ calculateQualityScore pkg ≤ 10) ∧
    (0 ≤ calculateSecurityScore pkg ∧ calculateSecurityScore pkg ≤ 10) := by
  refine ⟨maintenance_bounds now pkg, ⟨?_, (popularity_bounds d).2⟩,
    ⟨(quality_bounds pkg).1, le_trans (quality_bounds pkg).2 (by norm_num)⟩,
    security_bounds pkg⟩
  exact le_trans (by norm_num) (popularity_bounds d).1

/-- A deprecated package with a recent publish and more than ten
non-synthetic publish-history entries. -/
def deprecatedManyReleases : Pkg :=
  { name := "request"
    time := some [("created", 1), ("modified", 1), ("1.0.0", 1), ("1.0.1", 1),
                  ("1.0.2", 1), ("1.0.3", 1), ("1.0.4", 1), ("1.0.5", 1),
                  ("1.0.6", 1), ("1.0.7", 1), ("1.0.8", 1), ("1.0.9", 1),
                  ("2.0.0", 1)]
    deprecated := some "request has been deprecated" }

/-- A deprecated package with a single release entry. -/
def deprecatedFewReleases : Pkg :=
  { name := "old-thing"
    time := some [("created", 1), ("modified", 1), ("1.0.0", 1)]
    deprecated := some "no longer maintained" }

/-- C1 counterexample: a deprecated package whose publish history has more
than ten release entries gets maintenance score 2, not 0 — the release-cadence
bonus of lines 71–76 is added after the deprecation reset of lines 66–68. -/
theorem deprecated_with_releases_scores_nonzero :
    isDeprecated deprecatedManyReleases = true ∧
    calculateMaintenanceScore 1 deprecatedManyReleases = 2 :=
  ⟨by decide, by decide⟩

/-- C1 (amended): for a deprecated package the recency component is reset to
0, but the release-cadence bonus is still added afterwards, so the
maintenance score equals that bonus: 2 with more than ten non-synthetic
publish-history entries, 1 with six to ten, and 0 otherwise — in particular
it is 0, regardless of publish recency, only when the package has at most
five release entries. -/
theorem deprecated_maintenance_is_release_bonus (now : ℚ) (pkg : Pkg)
    (h : isDeprecated pkg = true) :
    calculateMaintenanceScore now pkg =
      if (versionKeys pkg).length > 10 then 2
      else if (versionKeys pkg).length > 5 then 1
      else 0 := by
  simp only [calculateMaintenanceScore, h]
  split_ifs <;> decide

/-- C1 witness: the amended deprecation law applied to a concrete deprecated
package with a single release entry (where it yields 0). -/
theorem deprecated_maintenance_is_release_bonus_witness :
    calculateMaintenanceScore 1 deprecatedFewReleases =
      if (versionKeys deprecatedFewReleases).length > 10 then 2
      else if (versionKeys deprecatedFewReleases).length > 5 then 1
      else 0 :=
  deprecated_maintenance_is_release_bonus 1 deprecatedFewReleases (by decide)

/-- C3: the composite of every successful evaluation equals
`quality*0.15 + maintenance*0.25 + security*0.20 + popularity*0.10 + 3.0`
rounded to one decimal place (in exact rational arithmetic, rounding half
up), and the formula yields 10.0 on all-ten sub-scores and 3.0 on all-zero
sub-scores. -/
theorem composite_score_formula :
    (∀ (now : ℚ) (name : String) (pkg : Pkg) (d : ℚ),
      (evaluatePackage now name (.ok pkg) d).scores.composite =
        (⌊((calculateQualityScore pkg : ℚ) * (15 / 100) +
            (calculateMaintenanceScore now pkg : ℚ) * (25 / 100) +
            (calculateSecurityScore pkg : ℚ) * (20 / 100) +
            (calculatePopularityScore d : ℚ) * (10 / 100) + 3) * 10 + 1 / 2⌋ : ℚ) / 10) ∧
    compositeOf 10 10 10 10 = 10 ∧
    compositeOf 0 0 0 0 = 3 := by
  refine ⟨fun now name pkg d => ?_, by rw [compositeOf_eq]; norm_num,
    by rw [compositeOf_eq]; norm_num⟩
  show compositeOf _ _ _ _ = _
  exact compositeOf_eq _ _ _ _

/-- C7: license classification is a case-insensitive substring match against
the fixed compatible and problematic lists, the compatible list checked
first, with "unknown" when neither matches; "MIT", "GPL-3.0-or-later" and
"WTFPL" classify as compatible, problematic and unknown respectively. -/
theorem license_compatibility_classification :
    isLicenseCompatible "MIT" = "compatible" ∧
    isLicenseCompatible "GPL-3.0-or-later" = "problematic" ∧
    isLicenseCompatible "WTFPL" = "unknown" ∧
    ∀ license : String,
      (isLicenseCompatible license = "compatible" ↔
        ∃ c ∈ compatibleList, strIncludes (jsToUpper license) (jsToUpper c) = true) ∧
      (isLicenseCompatible license = "problematic" ↔
        ((¬ ∃ c ∈ compatibleList, strIncludes (jsToUpper license) (jsToUpper c) = true) ∧
          ∃ p ∈ problematicList, strIncludes (jsToUpper license) (jsToUpper p) = true)) ∧
      (isLicenseCompatible license = "unknown" ↔
        ((¬ ∃ c ∈ compatibleList, strIncludes (jsToUpper license) (jsToUpper c) = true) ∧
          ¬ ∃ p ∈ problematicList, strIncludes (jsToUpper license) (jsToUpper p) = true)) := by
  refine ⟨by decide, by decide, by decide, fun license => ?_⟩
  simp only [isLicenseCompatible]
  split_ifs with h1 h2
  · simp only [List.any_eq_true] at h1
    exact ⟨⟨fun _ => h1, fun _ => rfl⟩,
      ⟨fun h => absurd h (by decide), fun hh => absurd h1 hh.1⟩,
      ⟨fun h => absurd h (by decide), fun hh => absurd h1 hh.1⟩⟩
  · simp only [List.any_eq_true] at h1 h2
    exact ⟨⟨fun h => absurd h (by decide), fun hh => absurd hh h1⟩,
      ⟨fun _ => ⟨h1, h2⟩, fun _ => rfl⟩,
      ⟨fun h => absurd h (by decide), fun hh => absurd h2 hh.2⟩⟩
  · simp only [List.any_eq_true] at h1 h2
    exact ⟨⟨fun h => absurd h (by decide), fun hh => absurd hh h1⟩,
      ⟨fun h => absurd h (by decide), fun hh => absurd hh.2 h2⟩,
      ⟨fun _ => ⟨h1, h2⟩, fun _ => rfl⟩⟩

/-- C7 witness: the characterization applied at the concrete license "0BSD",
discharging the existential with a concrete member of the compatible list. -/
theorem license_compatibility_classification_witness :
    isLicenseCompatible "0BSD" = "compatible" :=
  (license_compatibility_classification.2.2.2 "0BSD").1.2 ⟨"0BSD", by decide, by decide⟩

/-- C6: `detectLicense` accepts the three license shapes — a plain string
returned as-is, an object with a truthy `type` whose type is returned, and a
list of entries each rendered to its `type` (or itself when a plain string)
and joined with ", " — and returns the literal "Unknown" when both the
`license` and `licenses` fields are absent; the list-shaped value
`[{type:"MIT"}]` resolves to "MIT". -/
theorem detect_license_shapes :
    (∀ (pkg : Pkg) (s : String), pkg.license = .jstr s → detectLicense pkg = s) ∧
    (∀ (pkg : Pkg) (t : String), pkg.license = .jobj (some t) → t ≠ "" →
      detectLicense pkg = t) ∧
    (∀ (pkg : Pkg) (entries : List LEntry), pkg.license = .jabsent →
      pkg.licenses = some entries →
      detectLicense pkg = String.intercalate ", " (entries.map entryText)) ∧
    (∀ pkg : Pkg, pkg.license = .jabsent → pkg.licenses = none →
      detectLicense pkg = "Unknown") ∧
    detectLicense { name := "mit-pkg", licenses := some [.lobj (some "MIT")] } = "MIT" := by
  refine ⟨fun pkg s h => ?_, fun pkg t h ht => ?_, fun pkg entries h hl => ?_,
    fun pkg h hl => ?_, by decide⟩
  · simp [detectLicense, h]
  · simp [detectLicense, h, ht]
  · simp [detectLicense, licensesFallback, h, hl]
  · simp [detectLicense, licensesFallback, h, hl]

/-- C6 witness: the plain-string shape applied at a concrete package. -/
theorem detect_license_shapes_witness :
    detectLicense { name := "m", license := .jstr "MIT" } = "MIT" :=
  detect_license_shapes.1 { name := "m", license := .jstr "MIT" } "MIT" rfl

/-- C8 counterexample: a parsed response body whose `downloads` field is a
negative number is passed through unchanged — `stats.downloads || 0` only
replaces falsy values, so the fetch can resolve to a negative value. -/
theorem download_stats_negative_passthrough :
    getDownloadStats (.stats (some (-5))) < 0 := by
  norm_num [getDownloadStats]

/-- C8 (amended): the download-stat fetch resolves to 0 on network error, on
parse failure and on an absent or zero `downloads` field, and passes any
other parsed `downloads` value through unchanged; the result is therefore
non-negative for every response whose `downloads` field is not a negative
number, but a negative field value is returned as-is rather than clamped. -/
theorem download_stats_defaults :
    getDownloadStats .netError = 0 ∧
    getDownloadStats .badBody = 0 ∧
    getDownloadStats (.stats none) = 0 ∧
    (∀ v : ℚ, v ≠ 0 → getDownloadStats (.stats (some v)) = v) ∧
    (∀ r : DlResponse, (∀ v, r = .stats (some v) → 0 ≤ v) → 0 ≤ getDownloadStats r) := by
  refine ⟨rfl, rfl, rfl, fun v hv => by simp [getDownloadStats, hv], fun r hr => ?_⟩
  match r with
  | .netError => norm_num [getDownloadStats]
  | .badBody => norm_num [getDownloadStats]
  | .stats none => norm_num [getDownloadStats]
  | .stats (some v) =>
    have hv := hr v rfl
    simp only [getDownloadStats]
    split_ifs <;> simp [hv]

/-- C8 witness: the non-negativity conjunct applied at the network-error
response (whose hypothesis holds vacuously). -/
theorem download_stats_defaults_witness :
    0 ≤ getDownloadStats .netError :=
  download_stats_defaults.2.2.2.2 .netError (fun _ h => nomatch h)

/-- C9: scoring is deterministic — with the current time treated as a frozen
input, two evaluations of equal metadata and equal download counts produce
equal ScoreRecords (the candidate name does not enter the scores). -/
theorem scoring_deterministic (now1 now2 : ℚ) (name1 name2 : String)
    (pkg1 pkg2 : Pkg) (d1 d2 : ℚ)
    (hn : now1 = now2) (hp : pkg1 = pkg2) (hd : d1 = d2) :
    (evaluatePackage now1 name1 (.ok pkg1) d1).scores =
      (evaluatePackage now2 name2 (.ok pkg2) d2).scores := by
  subst hn; subst hp; subst hd; rfl

/-- C9 witness: the determinism law applied at one concrete frozen input,
evaluated under two different candidate names. -/
theorem scoring_deterministic_witness :
    (evaluatePackage 5 "lodash" (.ok deprecatedFewReleases) 1500).scores =
      (evaluatePackage 5 "underscore" (.ok deprecatedFewReleases) 1500).scores :=
  scoring_deterministic 5 5 "lodash" "underscore" deprecatedFewReleases
    deprecatedFewReleases 1500 1500 rfl rfl rfl

/-- C2: batch evaluation returns one record per input name, in input order;
an input whose metadata fetch failed yields a record carrying the error
message and all-zero scores, while every successfully fetched input yields a
record with no error and the scores computed by the scorer; the batch map is
total, so an individual failure never aborts it. -/
theorem batch_evaluation_shape (now : ℚ) (inputs : List EvalInput)
    (hne : inputs ≠ []) :
    (evaluateAll now inputs).length = inputs.length ∧
    (∀ (i : ℕ) (hi : i < inputs.length),
      (evaluateAll now inputs)[i]? =
        some (evaluatePackage now (inputs.get ⟨i, hi⟩).name (inputs.get ⟨i, hi⟩).fetched
          (inputs.get ⟨i, hi⟩).downloads)) ∧
    (∀ (name msg : String) (d : ℚ),
      (evaluatePackage now name (.error msg) d).name = name ∧
      (evaluatePackage now name (.error msg) d).error = some msg ∧
      (evaluatePackage now name (.error msg) d).scores = zeroScores) ∧
    (∀ (name : String) (pkg : Pkg) (d : ℚ),
      (evaluatePackage now name (.ok pkg) d).name = name ∧
      (evaluatePackage now name (.ok pkg) d).error = none ∧
      (evaluatePackage now name (.ok pkg) d).scores =
        { maintenance := calculateMaintenanceScore now pkg
          popularity := calculatePopularityScore d
          quality := calculateQualityScore pkg
          security := calculateSecurityScore pkg
          composite := compositeOf (calculateQualityScore pkg)
            (calculateMaintenanceScore now pkg) (calculateSecurityScore pkg)
            (calculatePopularityScore d) }) := by
  refine ⟨List.length_map _ _, fun i hi => ?_, fun name msg d => ⟨rfl, rfl, rfl⟩,
    fun name pkg d => ⟨rfl, rfl, rfl⟩⟩
  rw [evaluateAll, List.getElem?_map, List.getElem?_eq_getElem hi]
  rfl

/-- A well-formed package used by the batch witness. -/
def witnessPkg : Pkg :=
  { name := "left-pad"
    version := some "1.3.0"
    time := some [("created", 1400000000000), ("modified", 1500000000000),
                  ("1.0.0", 1400000000000)]
    license := .jstr "WTFPL"
    keywords := some ["pad", "string"]
    maintainers := some ["stevemao"] }

/-- A two-candidate batch in which the first fetch failed. -/
def witnessInputs : List EvalInput :=
  [{ name := "nope-not-a-pkg",
     fetched := .error "Failed to fetch info for nope-not-a-pkg: E404",
     downloads := 0 },
   { name := "left-pad", fetched := .ok witnessPkg, downloads := 2500000 }]

/-- C2 witness: the batch law applied to a concrete two-candidate batch with
one failing fetch. -/
theorem batch_evaluation_shape_witness :
    (evaluateAll 1600000000000 witnessInputs).length = witnessInputs.length :=
  (batch_evaluation_shape 1600000000000 witnessInputs (List.cons_ne_nil _ _)).1

/-- Bounds for the composite formula under the reachable sub-score ranges. -/
theorem compositeOf_bounds (q m s p : ℤ) (hq0 : 0 ≤ q) (hq7 : q ≤ 7)
    (hm0 : 0 ≤ m) (hm10 : m ≤ 10) (hs0 : 0 ≤ s) (hs10 : s ≤ 10)
    (hp1 : 1 ≤ p) (hp10 : p ≤ 10) :
    31 / 10 ≤ compositeOf q m s p ∧ compositeOf q m s p ≤ 10 := by
  rw [compositeOf_eq]
  have hq0' : (0 : ℚ) ≤ (q : ℚ) := by exact_mod_cast hq0
  have hq7' : (q : ℚ) ≤ 7 := by exact_mod_cast hq7
  have hm0' : (0 : ℚ) ≤ (m : ℚ) := by exact_mod_cast hm0
  have hm10' : (m : ℚ) ≤ 10 := by exact_mod_cast hm10
  have hs0' : (0 : ℚ) ≤ (s : ℚ) := by exact_mod_cast hs0
  have hs10' : (s : ℚ) ≤ 10 := by exact_mod_cast hs10
  have hp1' : (1 : ℚ) ≤ (p : ℚ) := by exact_mod_cast hp1
  have hp10' : (p : ℚ) ≤ 10 := by exact_mod_cast hp10
  have hflo : (31 : ℤ) ≤
      ⌊((q : ℚ) * (15 / 100) + (m : ℚ) * (25 / 100) + (s : ℚ) * (20 / 100) +
        (p : ℚ) * (10 / 100) + 3) * 10 + 1 / 2⌋ :=
    Int.le_floor.mpr (by push_cast; linarith)
  have hfhi :
      ⌊((q : ℚ) * (15 / 100) + (m : ℚ) * (25 / 100) + (s : ℚ) * (20 / 100) +
        (p : ℚ) * (10 / 100) + 3) * 10 + 1 / 2⌋ < 97 :=
    Int.floor_lt.mpr (by push_cast; linarith)
  have hflo' : (31 : ℚ) ≤
      (⌊((q : ℚ) * (15 / 100) + (m : ℚ) * (25 / 100) + (s : ℚ) * (20 / 100) +
        (p : ℚ) * (10 / 100) + 3) * 10 + 1 / 2⌋ : ℚ) := by exact_mod_cast hflo
  have hfhi' :
      (⌊((q : ℚ) * (15 / 100) + (m : ℚ) * (25 / 100) + (s : ℚ) * (20 / 100) +
        (p : ℚ) * (10 / 100) + 3) * 10 + 1 / 2⌋ : ℚ) ≤ 96 := by
    have : ⌊((q : ℚ) * (15 / 100) + (m : ℚ) * (25 / 100) + (s : ℚ) * (20 / 100) +
        (p : ℚ) * (10 / 100) + 3) * 10 + 1 / 2⌋ ≤ 96 := by omega
    exact_mod_cast this
  constructor <;> [linarith; linarith]

/-- C10: the composite of every successful evaluation lies in `[3.1, 10.0]`
(popularity is at least 1 and quality at most 7), and the composite of an
error-shaped record is 0, so a composite of 0 occurs only there. -/
theorem composite_bounded_for_success :
    (∀ (now : ℚ) (name : String) (pkg : Pkg) (d : ℚ),
      31 / 10 ≤ (evaluatePackage now name (.ok pkg) d).scores.composite ∧
      (evaluatePackage now name (.ok pkg) d).scores.composite ≤ 10) ∧
    (∀ (now : ℚ) (name msg : String) (d : ℚ),
      (evaluatePackage now name (.error msg) d).scores.composite = 0) := by
  refine ⟨fun now name pkg d => ?_, fun now name msg d => rfl⟩
  show 31 / 10 ≤ compositeOf _ _ _ _ ∧ compositeOf _ _ _ _ ≤ 10
  exact compositeOf_bounds _ _ _ _ (quality_bounds pkg).1 (quality_bounds pkg).2
    (maintenance_bounds now pkg).1 (maintenance_bounds now pkg).2
    (security_bounds pkg).1 (security_bounds pkg).2
    (popularity_bounds d).1 (popularity_bounds d).2

end NpmScout
